import Mathlib

/-!
Verification of the session-oriented MCP protocol gateway in `src/build/index.js`
(class `AxwayMcpServer`): session registry, request dispatcher, idle-session
reaper, and the tool-invoker error envelope.

The JavaScript is shallowly embedded: the two mutable maps `transports` and
`sessionTimestamps` become association lists inside a `ServerState`; the
HTTP handler `handleRequest`, the sweep `cleanupOldSessions`, the header
reader `getSessionIdFromHeaders` and the classifier `isInitializeRequest`
become pure Lean functions over that state.  `Date.now()` and `randomUUID()`
are suspension points supplied as explicit arguments (`now`, `freshId`).
JavaScript truthiness on strings (the empty string is falsy) is modelled
explicitly wherever the source relies on it.
-/

namespace ApimMcp

/-- A JSON value, as produced by `JSON.parse` on a request body and consumed
by `JSON.stringify` in the tool-result envelope.  Objects are field lists. -/
inductive Json where
  | null
  | bool (b : Bool)
  | num (n : Int)
  | str (s : String)
  | arr (elems : List Json)
  | obj (fields : List (String × Json))
deriving Repr

/-- First-match association-list lookup: the behaviour of reading a property
of a JavaScript object modelled as a field list. -/
def mapLookup {α : Type} : List (String × α) → String → Option α
  | [], _ => none
  | (k', v) :: rest, k => if k' = k then some v else mapLookup rest k

/-- Embeds `delete m[k]`: removes every binding of `k` (a JS object has at most one). -/
def mapErase {α : Type} (m : List (String × α)) (k : String) : List (String × α) :=
  m.filter (fun p => p.1 ≠ k)

/-- Embeds `m[k] = v`: overwriting assignment of a key in a JS object. -/
def mapInsert {α : Type} (m : List (String × α)) (k : String) (v : α) :
    List (String × α) :=
  (k, v) :: mapErase m k

/-- Embeds `const SESSION_ID_HEADER_NAME = "mcp-session-id"` (index.js line 36). -/
def SESSION_ID_HEADER_NAME : String := "mcp-session-id"

/-- The sweep period passed to `setInterval` (index.js lines 61-63):
`5 * 60 * 1000` milliseconds. -/
def cleanupIntervalMs : Nat := 5 * 60 * 1000

/-- Embeds `const maxAge = 30 * 60 * 1000` (index.js line 68): the idle timeout. -/
def maxAge : Nat := 30 * 60 * 1000

/-- Reading `headers[name]` under the JS truthiness test of
`if (headers[variation])`: a missing header and an empty-string header both
fail the test (index.js line 87). -/
def headerTruthy (headers : List (String × String)) (name : String) :
    Option String :=
  match mapLookup headers name with
  | some v => if v = "" then none else some v
  | none => none

/-- The `variations` array of `getSessionIdFromHeaders`
(index.js lines 78-85): the constant header name, its `toLowerCase()` and
its `toUpperCase()`, listed twice.  The case conversions of the fixed
ASCII literal `"mcp-session-id"` are folded to their results, so the list
holds only two distinct names. -/
def variations : List String :=
  [SESSION_ID_HEADER_NAME,
   "mcp-session-id",
   "MCP-SESSION-ID",
   "mcp-session-id",
   "mcp-session-id",
   "MCP-SESSION-ID"]

/-- The `for (const variation of variations)` loop with early return
(index.js lines 86-90). -/
def findHeader (headers : List (String × String)) :
    List String → Option String
  | [] => none
  | v :: rest =>
    match headerTruthy headers v with
    | some val => some val
    | none => findHeader headers rest

/-- Embeds `getSessionIdFromHeaders(headers)` (index.js lines 77-92). -/
def getSessionIdFromHeaders (headers : List (String × String)) :
    Option String :=
  findHeader headers variations

/-- Embeds `data?.method` of the `check` closure: the `method` property of a JSON
value, `none` when the value is not an object or lacks the property. -/
def jsonMethod : Json → Option Json
  | .obj fields => mapLookup fields "method"
  | _ => none

/-- Embeds `check = (data) => data?.method === 'initialize'` (index.js line 94):
strict equality against the string literal. -/
def checkInit (data : Json) : Bool :=
  match jsonMethod data with
  | some (.str s) => s = "initialize"
  | _ => false

/-- Embeds `isInitializeRequest(body)` (index.js lines 93-99): an array body is an
initialize request when some element passes `check`; any other body when it
passes `check` itself. -/
def isInitializeRequest (body : Json) : Bool :=
  match body with
  | .arr elems => elems.any checkInit
  | _ => checkInit body

/-- The per-session `StreamableHTTPServerTransport`; the source assigns
`transport.sessionId = generatedSessionId` (index.js line 154). -/
structure Transport where
  sessionId : String
deriving DecidableEq, Repr

/-- The mutable session registry of `AxwayMcpServer`: `transports` and
`sessionTimestamps` (index.js lines 47-48), keyed by session id. -/
structure ServerState where
  transports : List (String × Transport)
  sessionTimestamps : List (String × Nat)
deriving DecidableEq, Repr

/-- The empty registry a fresh `AxwayMcpServer` starts with. -/
def initialState : ServerState := ⟨[], []⟩

/-- HTTP method of an inbound request, as dispatched on `req.method`. -/
inductive Method where
  | GET
  | POST
  | other
deriving DecidableEq, Repr

/-- Outcome of `handleRequest` on the response object: either the request
was delegated to a transport's `handleRequest` (with the value, if any, that
`res.setHeader(SESSION_ID_HEADER_NAME, ...)` put on the response), or it was
rejected with `res.writeHead(status)` and the given `error` field. -/
inductive HandleResult where
  | delegated (sessionIdHeader : Option String) (sid : String)
  | rejected (status : Nat) (error : String)
deriving DecidableEq, Repr

/-- The session-id header that `handleRequest` set on the response, if any. -/
def sessionIdHeaderOf : HandleResult → Option String
  | .delegated h _ => h
  | .rejected _ _ => none

/-- The `req.method === 'GET'` block of `handleRequest`
(index.js lines 109-131), in source order:
* a session id held in `transports` → attach to the SSE stream (line 113);
* a session id not held → 400 `Invalid session ID` (line 118);
* no session id → 400 `No session ID` (line 126).
No branch mutates the registry. -/
def handleGET (st : ServerState) (headers : List (String × String)) :
    HandleResult × ServerState :=
  match getSessionIdFromHeaders headers with
  | some sid =>
    match mapLookup st.transports sid with
    | some _ => (.delegated none sid, st)
    | none => (.rejected 400 "Invalid session ID", st)
  | none => (.rejected 400 "No session ID", st)

/-- The `req.method === 'POST'` block of `handleRequest`
(index.js lines 133-186), in source order:
* a session id held in `transports` → refresh the timestamp and forward
  (lines 138-143);
* no session id and the body is an initialize request → create: a transport
  carrying `freshId` (the `randomUUID()` result) is stored in both maps, the
  session-id header is set, and the body is forwarded (lines 145-171); the
  source guards storage with `if (transport.sessionId)`, so a falsy (empty)
  `freshId` would skip it;
* a session id not held → 400 `Invalid session ID` (line 173);
* otherwise → 400 `Invalid request` (line 181). -/
def handlePOST (st : ServerState) (headers : List (String × String))
    (jsonBody : Json) (now : Nat) (freshId : String) :
    HandleResult × ServerState :=
  match getSessionIdFromHeaders headers with
  | some sid =>
    match mapLookup st.transports sid with
    | some _ =>
      (.delegated none sid,
       { st with sessionTimestamps := mapInsert st.sessionTimestamps sid now })
    | none => (.rejected 400 "Invalid session ID", st)
  | none =>
    if isInitializeRequest jsonBody then
      if freshId = "" then
        (.delegated none freshId, st)
      else
        (.delegated (some freshId) freshId,
         { transports := mapInsert st.transports freshId ⟨freshId⟩,
           sessionTimestamps := mapInsert st.sessionTimestamps freshId now })
    else (.rejected 400 "Invalid request", st)

/-- Embeds `handleRequest(req, res)` (index.js lines 100-190) as a pure transition:
given the registry state, the request (method, headers, parsed JSON body)
and the ambient effects (`Date.now()` as `now`, `randomUUID()` as
`freshId`), it yields the response outcome and the new registry state.
Any method other than GET and POST gets 405 (line 189). -/
def handleRequest (st : ServerState) (method : Method)
    (headers : List (String × String)) (jsonBody : Json)
    (now : Nat) (freshId : String) : HandleResult × ServerState :=
  match method with
  | .GET => handleGET st headers
  | .POST => handlePOST st headers jsonBody now freshId
  | .other => (.rejected 405 "Method Not Allowed", st)

/-- Externally visible effects of a reaper sweep on a session: the source's
sweep only ever removes the registry entries (it never invokes
`transport.close()`, which would be a `transportClosed` event). -/
inductive Event where
  | transportClosed (sid : String)
  | sessionRemoved (sid : String)
deriving DecidableEq, Repr

/-- Deletion of one session id from both maps: the body of the reaper's
per-id branch (index.js lines 71-72) and of the `transport.onclose` handler
(index.js lines 162-166). -/
def removeSession (st : ServerState) (sid : String) : ServerState :=
  { transports := mapErase st.transports sid,
    sessionTimestamps := mapErase st.sessionTimestamps sid }

/-- The ids the sweep's guard selects: keys of `sessionTimestamps` whose
entry satisfies `now - this.sessionTimestamps[sessionId] > maxAge`
(index.js lines 69-70). -/
def expiredIds (st : ServerState) (now : Nat) : List String :=
  (st.sessionTimestamps.filter (fun p => maxAge < now - p.2)).map Prod.fst

/-- Embeds `cleanupOldSessions()` (index.js lines 66-76): for every stale id,
delete it from `transports` and from `sessionTimestamps`.  The event list
records what the sweep did to each evicted session; the source performs the
two deletions and a log line, and calls nothing on the transport itself. -/
def cleanupOldSessions (st : ServerState) (now : Nat) :
    ServerState × List Event :=
  ((expiredIds st now).foldl removeSession st,
   (expiredIds st now).map Event.sessionRemoved)

/-- One atomic step of the event loop touching the registry: an inbound
HTTP request, a reaper sweep, or a transport's `onclose` callback. -/
inductive Op where
  | request (method : Method) (headers : List (String × String))
      (jsonBody : Json) (now : Nat) (freshId : String)
  | cleanup (now : Nat)
  | onclose (sid : String)

/-- Effect of one step on the registry state. -/
def step (st : ServerState) : Op → ServerState
  | .request method headers jsonBody now freshId =>
    (handleRequest st method headers jsonBody now freshId).2
  | .cleanup now => (cleanupOldSessions st now).1
  | .onclose sid => removeSession st sid

/-- Running a sequence of event-loop steps. -/
def run (ops : List Op) (st : ServerState) : ServerState :=
  ops.foldl step st

/-- The invariant of claim C9: both registry maps hold exactly the same
session ids. -/
def sameKeys (st : ServerState) : Prop :=
  ∀ k, (mapLookup st.transports k).isSome
    ↔ (mapLookup st.sessionTimestamps k).isSome

/-! ## Tool invoker (`registerTools`, index.js lines 197-389) -/

/-- One entry of a collaborator failure's `errors` array. -/
structure ApiErrorEntry where
  message : Option String
deriving Repr

/-- The `data` object of a collaborator failure's HTTP response. -/
structure ErrorData where
  errors : Option (List ApiErrorEntry)
deriving Repr

/-- The `response` object attached to an axios-style failure. -/
structure ErrorResponse where
  data : Option ErrorData
deriving Repr

/-- A thrown JavaScript error as the catch block sees it: it may carry a
structured `response` and its own `message`. -/
structure JsError where
  response : Option ErrorResponse
  message : Option String
deriving Repr

/-- The optional chain `error.response?.data?.errors?.[0]?.message`
(index.js line 378). -/
def structuredMessage (e : JsError) : Option String :=
  ((((e.response.bind ErrorResponse.data).bind
      ErrorData.errors).bind List.head?).bind ApiErrorEntry.message)

/-- JS truthiness of a string-or-undefined operand of `||`: an absent value
and the empty string are both falsy. -/
def jsTruthy (o : Option String) : Option String :=
  o.bind (fun s => if s = "" then none else some s)

/-- Embeds `error.response?.data?.errors?.[0]?.message || error.message ||
"An unknown error occurred."` (index.js line 378). -/
def errorMessage (e : JsError) : String :=
  match jsTruthy (structuredMessage e) with
  | some m => m
  | none =>
    match jsTruthy e.message with
    | some m => m
    | none => "An unknown error occurred."

/-- One element of the `content` array of a tool result; `text` holds the
value the source passes to `JSON.stringify`. -/
structure ContentItem where
  type : String
  text : Json
deriving Repr

/-- The result envelope a registered tool handler returns to the SDK. -/
structure ToolResult where
  content : List ContentItem
deriving Repr

/-- The `try`/`catch` body shared by every registered tool
(index.js lines 199-386): `outcome` is what the routed operation did —
`ok result` when it returned, `error e` when it threw.  On success the
result is wrapped as `{content: [{type: 'text', text: stringify result}]}`
(lines 369-374); on failure the handler returns, in the same envelope
shape, `{error: "Execution failed: " ++ message}` (lines 380-385). -/
def toolHandler (outcome : Except JsError Json) : ToolResult :=
  match outcome with
  | .ok result => ⟨[⟨"text", result⟩]⟩
  | .error e =>
    ⟨[⟨"text", .obj [("error", .str ("Execution failed: " ++ errorMessage e))]⟩]⟩

/-! ## Association-list lemmas -/

theorem mapLookup_mapErase {α : Type} (m : List (String × α)) (k k' : String) :
    mapLookup (mapErase m k') k = if k = k' then none else mapLookup m k := by
  induction m with
  | nil => simp [mapLookup, mapErase]
  | cons p rest ih =>
    obtain ⟨a, v⟩ := p
    by_cases hak' : a = k'
    · subst hak'
      have h1 : mapErase ((a, v) :: rest) a = mapErase rest a := by
        simp [mapErase, List.filter_cons]
      rw [h1, ih]
      by_cases hk : k = a
      · simp [hk]
      · have h2 : a ≠ k := fun h => hk h.symm
        simp [mapLookup, hk, h2]
    · have h1 : mapErase ((a, v) :: rest) k' = (a, v) :: mapErase rest k' := by
        simp [mapErase, List.filter_cons, hak']
      rw [h1]
      by_cases hak : a = k
      · subst hak
        simp [mapLookup, hak']
      · simp [mapLookup, hak, ih]

theorem mapLookup_mapErase_self {α : Type} (m : List (String × α)) (k : String) :
    mapLookup (mapErase m k) k = none := by
  simp [mapLookup_mapErase]

theorem mapLookup_mapInsert {α : Type} (m : List (String × α)) (k k' : String)
    (v : α) :
    mapLookup (mapInsert m k' v) k =
      if k' = k then some v else mapLookup m k := by
  by_cases h : k' = k
  · subst h
    simp [mapInsert, mapLookup]
  · have hk : k ≠ k' := fun hk => h hk.symm
    simp [mapInsert, mapLookup, h, mapLookup_mapErase, hk]

theorem mapErase_of_lookup_none {α : Type} (m : List (String × α)) (k : String)
    (h : mapLookup m k = none) : mapErase m k = m := by
  induction m with
  | nil => rfl
  | cons p rest ih =>
    obtain ⟨a, v⟩ := p
    by_cases hak : a = k
    · subst hak
      simp [mapLookup] at h
    · simp [mapLookup, hak] at h
      calc mapErase ((a, v) :: rest) k = (a, v) :: mapErase rest k := by
            simp [mapErase, List.filter_cons, hak]
        _ = (a, v) :: rest := by rw [ih h]

theorem mapErase_mapErase {α : Type} (m : List (String × α)) (k : String) :
    mapErase (mapErase m k) k = mapErase m k := by
  simp [mapErase, List.filter_filter]

theorem mapLookup_mem {α : Type} {m : List (String × α)} {k : String} {v : α}
    (h : mapLookup m k = some v) : (k, v) ∈ m := by
  induction m with
  | nil => simp [mapLookup] at h
  | cons p rest ih =>
    obtain ⟨a, w⟩ := p
    by_cases hak : a = k
    · subst hak
      simp [mapLookup] at h
      subst h
      exact List.mem_cons_self _ _
    · simp [mapLookup, hak] at h
      exact List.mem_cons_of_mem _ (ih h)

/-! ## Reaper-sweep lemmas -/

theorem foldl_removeSession_lookup (ids : List String) (st : ServerState)
    (k : String) :
    mapLookup (ids.foldl removeSession st).transports k
        = (if k ∈ ids then none else mapLookup st.transports k)
    ∧ mapLookup (ids.foldl removeSession st).sessionTimestamps k
        = (if k ∈ ids then none else mapLookup st.sessionTimestamps k) := by
  induction ids generalizing st with
  | nil => simp
  | cons a rest ih =>
    have h := ih (removeSession st a)
    have ht : mapLookup (removeSession st a).transports k
        = (if k = a then none else mapLookup st.transports k) := by
      simp [removeSession, mapLookup_mapErase]
    have hs : mapLookup (removeSession st a).sessionTimestamps k
        = (if k = a then none else mapLookup st.sessionTimestamps k) := by
      simp [removeSession, mapLookup_mapErase]
    constructor
    · rw [List.foldl_cons, h.1, ht]
      by_cases h1 : k ∈ rest <;> by_cases h2 : k = a <;>
        simp [h1, h2, List.mem_cons]
    · rw [List.foldl_cons, h.2, hs]
      by_cases h1 : k ∈ rest <;> by_cases h2 : k = a <;>
        simp [h1, h2, List.mem_cons]

theorem mem_expiredIds {st : ServerState} {now : Nat} {sid : String} {ts : Nat}
    (hts : mapLookup st.sessionTimestamps sid = some ts)
    (hexp : maxAge < now - ts) : sid ∈ expiredIds st now := by
  have hmem : (sid, ts) ∈ st.sessionTimestamps := mapLookup_mem hts
  have : (sid, ts) ∈ st.sessionTimestamps.filter (fun p => maxAge < now - p.2) := by
    simp [List.mem_filter, hmem, hexp]
  exact List.mem_map.mpr ⟨(sid, ts), this, rfl⟩

theorem cleanup_lookup (st : ServerState) (now : Nat) (k : String) :
    mapLookup (cleanupOldSessions st now).1.transports k
        = (if k ∈ expiredIds st now then none else mapLookup st.transports k)
    ∧ mapLookup (cleanupOldSessions st now).1.sessionTimestamps k
        = (if k ∈ expiredIds st now then none else
            mapLookup st.sessionTimestamps k) :=
  foldl_removeSession_lookup (expiredIds st now) st k

theorem cleanup_no_close (st : ServerState) (now : Nat) (s : String) :
    Event.transportClosed s ∉ (cleanupOldSessions st now).2 := by
  intro h
  simp only [cleanupOldSessions, List.mem_map] at h
  obtain ⟨a, _, ha⟩ := h
  cases ha

/-! ## Dispatcher branch lemmas -/

theorem getSessionId_of_single_header (sid : String) (hsid : sid ≠ "") :
    getSessionIdFromHeaders [(SESSION_ID_HEADER_NAME, sid)] = some sid := by
  simp [getSessionIdFromHeaders, variations, findHeader, headerTruthy,
    mapLookup, SESSION_ID_HEADER_NAME, hsid]

theorem handleGET_state (st : ServerState) (headers : List (String × String)) :
    (handleGET st headers).2 = st := by
  cases hs : getSessionIdFromHeaders headers with
  | none => simp [handleGET, hs]
  | some sid =>
    cases ht : mapLookup st.transports sid with
    | none => simp [handleGET, hs, ht]
    | some t => simp [handleGET, hs, ht]

theorem handleRequest_state (st : ServerState) (method : Method)
    (headers : List (String × String)) (body : Json) (now : Nat)
    (fresh : String) :
    (handleRequest st method headers body now fresh).2 = st
    ∨ (∃ sid, (mapLookup st.transports sid).isSome ∧
        (handleRequest st method headers body now fresh).2 =
          { st with sessionTimestamps := mapInsert st.sessionTimestamps sid now })
    ∨ (handleRequest st method headers body now fresh).2 =
        { transports := mapInsert st.transports fresh ⟨fresh⟩,
          sessionTimestamps := mapInsert st.sessionTimestamps fresh now } := by
  cases method with
  | GET =>
    left
    show (handleGET st headers).2 = st
    exact handleGET_state st headers
  | POST =>
    cases hs : getSessionIdFromHeaders headers with
    | none =>
      by_cases hinit : isInitializeRequest body = true
      · by_cases hf : fresh = ""
        · left; simp [handleRequest, handlePOST, hs, hinit, hf]
        · right; right; simp [handleRequest, handlePOST, hs, hinit, hf]
      · left; simp [handleRequest, handlePOST, hs, hinit]
    | some sid =>
      cases ht : mapLookup st.transports sid with
      | none => left; simp [handleRequest, handlePOST, hs, ht]
      | some t =>
        right; left
        refine ⟨sid, ?_, ?_⟩
        · rw [ht]; rfl
        · simp [handleRequest, handlePOST, hs, ht]
  | other => left; rfl

theorem sameKeys_step (st : ServerState) (op : Op) (h : sameKeys st) :
    sameKeys (step st op) := by
  cases op with
  | request method headers body now fresh =>
    show sameKeys (handleRequest st method headers body now fresh).2
    rcases handleRequest_state st method headers body now fresh with
      heq | ⟨sid, hsid, heq⟩ | heq
    · rw [heq]; exact h
    · rw [heq]
      intro k
      by_cases hk : sid = k
      · subst hk
        simp [mapLookup_mapInsert, hsid]
      · simp [mapLookup_mapInsert, hk, h k]
    · rw [heq]
      intro k
      by_cases hk : fresh = k
      · subst hk
        simp [mapLookup_mapInsert]
      · simp [mapLookup_mapInsert, hk, h k]
  | cleanup now =>
    intro k
    have hc := cleanup_lookup st now k
    simp only [step]
    rw [hc.1, hc.2]
    by_cases hk : k ∈ expiredIds st now <;> simp [hk, h k]
  | onclose sid =>
    intro k
    simp only [step, removeSession, mapLookup_mapErase]
    by_cases hk : k = sid <;> simp [hk, h k]

theorem sameKeys_run (ops : List Op) (st : ServerState) (h : sameKeys st) :
    sameKeys (run ops st) := by
  induction ops generalizing st with
  | nil => exact h
  | cons a rest ih => exact ih (step st a) (sameKeys_step st a h)

theorem checkInit_iff (j : Json) :
    checkInit j = true ↔ jsonMethod j = some (Json.str "initialize") := by
  cases hm : jsonMethod j with
  | none => simp [checkInit, hm]
  | some v => cases v <;> simp [checkInit, hm]

/-! ## The claims -/

/-- Claim C1: a POST that carries no session-id header and whose JSON body
is not an initialize request is answered with the 400 `Invalid request`
rejection, and the registry is returned exactly as it was: no session id is
allocated, no transport is created or stored. -/
theorem c1_post_without_session_or_init_is_rejected
    (st : ServerState) (headers : List (String × String)) (body : Json)
    (now : Nat) (freshId : String)
    (hsid : getSessionIdFromHeaders headers = none)
    (hinit : isInitializeRequest body = false) :
    handleRequest st .POST headers body now freshId
      = (.rejected 400 "Invalid request", st) := by
  simp [handleRequest, handlePOST, hsid, hinit]

/-- Witness for C1: a POST with no headers and a `tools/list` body against
the empty registry. -/
theorem c1_witness :
    getSessionIdFromHeaders [] = none
    ∧ isInitializeRequest (Json.obj [("method", Json.str "tools/list")]) = false
    ∧ handleRequest initialState .POST []
        (Json.obj [("method", Json.str "tools/list")]) 0 "u1"
        = (.rejected 400 "Invalid request", initialState) :=
  ⟨rfl, rfl,
   c1_post_without_session_or_init_is_rejected initialState []
     (Json.obj [("method", Json.str "tools/list")]) 0 "u1" rfl rfl⟩

/-- Claim C6: a POST with no session-id header whose body is an initialize
request allocates the fresh id, binds a transport carrying that id, stores
both in the registry, and sets the session-id header on the response. -/
theorem c6_initialize_creates_session
    (st : ServerState) (headers : List (String × String)) (body : Json)
    (now : Nat) (freshId : String)
    (hsid : getSessionIdFromHeaders headers = none)
    (hinit : isInitializeRequest body = true)
    (hfresh : freshId ≠ "") :
    handleRequest st .POST headers body now freshId
      = (.delegated (some freshId) freshId,
         { transports := mapInsert st.transports freshId ⟨freshId⟩,
           sessionTimestamps := mapInsert st.sessionTimestamps freshId now })
    ∧ sessionIdHeaderOf (handleRequest st .POST headers body now freshId).1
        = some freshId
    ∧ mapLookup (handleRequest st .POST headers body now freshId).2.transports
        freshId = some ⟨freshId⟩
    ∧ mapLookup
        (handleRequest st .POST headers body now freshId).2.sessionTimestamps
        freshId = some now := by
  have hmain : handleRequest st .POST headers body now freshId
      = (.delegated (some freshId) freshId,
         { transports := mapInsert st.transports freshId ⟨freshId⟩,
           sessionTimestamps := mapInsert st.sessionTimestamps freshId now }) := by
    simp [handleRequest, handlePOST, hsid, hinit, hfresh]
  refine ⟨hmain, ?_, ?_, ?_⟩ <;>
    rw [hmain] <;> simp [sessionIdHeaderOf, mapLookup_mapInsert]

/-- Witness for C6: an initialize POST against the empty registry. -/
theorem c6_witness :
    handleRequest initialState .POST []
        (Json.obj [("method", Json.str "initialize")]) 5 "id-1"
      = (.delegated (some "id-1") "id-1",
         { transports := [("id-1", ⟨"id-1"⟩)],
           sessionTimestamps := [("id-1", 5)] }) :=
  (c6_initialize_creates_session initialState []
    (Json.obj [("method", Json.str "initialize")]) 5 "id-1"
    rfl rfl (by decide)).1

/-- Claim C10: an array body is classified as an initialize request exactly
when some element's `method` is the string `initialize`; a non-array body
exactly when its own `method` is that string. -/
theorem c10_initialize_classification :
    (∀ elems : List Json,
        isInitializeRequest (Json.arr elems) = true
          ↔ ∃ e ∈ elems, jsonMethod e = some (Json.str "initialize"))
    ∧ (∀ body : Json, (∀ elems, body ≠ Json.arr elems) →
        (isInitializeRequest body = true
          ↔ jsonMethod body = some (Json.str "initialize"))) := by
  constructor
  · intro elems
    simp [isInitializeRequest, List.any_eq_true, checkInit_iff]
  · intro body hb
    cases body with
    | arr elems => exact absurd rfl (hb elems)
    | null => simpa [isInitializeRequest] using checkInit_iff Json.null
    | bool b => simpa [isInitializeRequest] using checkInit_iff (Json.bool b)
    | num n => simpa [isInitializeRequest] using checkInit_iff (Json.num n)
    | str s => simpa [isInitializeRequest] using checkInit_iff (Json.str s)
    | obj fields => simpa [isInitializeRequest] using checkInit_iff (Json.obj fields)

/-- Witness for C10: a two-element batch with one initialize element is
classified as initialize; a lone `tools/list` object is not. -/
theorem c10_witness :
    isInitializeRequest
        (Json.arr [Json.null, Json.obj [("method", Json.str "initialize")]])
      = true
    ∧ (isInitializeRequest (Json.obj [("method", Json.str "tools/list")]) = true
        ↔ jsonMethod (Json.obj [("method", Json.str "tools/list")])
            = some (Json.str "initialize")) := by
  constructor
  · exact (c10_initialize_classification.1 _).mpr
      ⟨Json.obj [("method", Json.str "initialize")], by simp,
       by simp [jsonMethod, mapLookup]⟩
  · exact c10_initialize_classification.2
      (Json.obj [("method", Json.str "tools/list")])
      (fun elems h => Json.noConfusion h)

/-- Claim C3: a session whose timestamp is older than the 30-minute idle
timeout at a sweep is removed from both registry maps by that sweep (the
sweep period constant is 5 minutes), and any later POST or GET bearing that
session id is rejected with 400 `Invalid session ID` without touching the
registry. -/
theorem c3_idle_sessions_are_reaped
    (st : ServerState) (now now2 : Nat) (sid : String) (ts : Nat)
    (body : Json) (freshId : String)
    (hts : mapLookup st.sessionTimestamps sid = some ts)
    (hexp : maxAge < now - ts)
    (hsid : sid ≠ "") :
    maxAge = 30 * 60 * 1000
    ∧ cleanupIntervalMs = 5 * 60 * 1000
    ∧ mapLookup (cleanupOldSessions st now).1.transports sid = none
    ∧ mapLookup (cleanupOldSessions st now).1.sessionTimestamps sid = none
    ∧ handleRequest (cleanupOldSessions st now).1 .POST
        [(SESSION_ID_HEADER_NAME, sid)] body now2 freshId
        = (.rejected 400 "Invalid session ID", (cleanupOldSessions st now).1)
    ∧ handleRequest (cleanupOldSessions st now).1 .GET
        [(SESSION_ID_HEADER_NAME, sid)] body now2 freshId
        = (.rejected 400 "Invalid session ID", (cleanupOldSessions st now).1) := by
  have hmem := mem_expiredIds hts hexp
  have hc := cleanup_lookup st now sid
  have h1 : mapLookup (cleanupOldSessions st now).1.transports sid = none := by
    rw [hc.1]; simp [hmem]
  have h2 : mapLookup (cleanupOldSessions st now).1.sessionTimestamps sid
      = none := by
    rw [hc.2]; simp [hmem]
  have hhdr := getSessionId_of_single_header sid hsid
  refine ⟨rfl, rfl, h1, h2, ?_, ?_⟩
  · simp [handleRequest, handlePOST, hhdr, h1]
  · simp [handleRequest, handleGET, hhdr, h1]

/-- Witness for C3: a session stamped at 0 is evicted by a sweep at
30 minutes + 1 ms, and a later POST with its id is rejected. -/
theorem c3_witness :
    mapLookup (cleanupOldSessions ⟨[("s", ⟨"s"⟩)], [("s", 0)]⟩
        1800001).1.transports "s" = none
    ∧ handleRequest (cleanupOldSessions ⟨[("s", ⟨"s"⟩)], [("s", 0)]⟩ 1800001).1
        .POST [(SESSION_ID_HEADER_NAME, "s")] Json.null 1800002 "u2"
        = (.rejected 400 "Invalid session ID",
           (cleanupOldSessions ⟨[("s", ⟨"s"⟩)], [("s", 0)]⟩ 1800001).1) := by
  have h := c3_idle_sessions_are_reaped ⟨[("s", ⟨"s"⟩)], [("s", 0)]⟩
    1800001 1800002 "s" 0 Json.null "u2" rfl (by decide) (by decide)
  exact ⟨h.2.2.1, h.2.2.2.2.1⟩

/-- Counterexample to C4 as stated: a GET bearing a session id that
resolves in the registry is served (`delegated`), yet the session's
timestamp is NOT updated to the current time 100 — it stays 0. -/
theorem c4_counterexample :
    mapLookup (⟨[("s", ⟨"s"⟩)], [("s", 0)]⟩ : ServerState).transports "s"
        = some ⟨"s"⟩
    ∧ (handleRequest ⟨[("s", ⟨"s"⟩)], [("s", 0)]⟩ .GET
        [("mcp-session-id", "s")] Json.null 100 "f").1 = .delegated none "s"
    ∧ (handleRequest ⟨[("s", ⟨"s"⟩)], [("s", 0)]⟩ .GET
        [("mcp-session-id", "s")] Json.null 100 "f").2
        = ⟨[("s", ⟨"s"⟩)], [("s", 0)]⟩
    ∧ mapLookup (handleRequest ⟨[("s", ⟨"s"⟩)], [("s", 0)]⟩ .GET
        [("mcp-session-id", "s")] Json.null 100 "f").2.sessionTimestamps "s"
        = some 0
    ∧ (0 : Nat) ≠ 100 := by
  refine ⟨rfl, ?_, ?_, ?_, by decide⟩ <;> decide

/-- Claim C4 amended: only a POST bearing a session id that resolves in the
registry updates the session's timestamp to the current time; a GET leaves
the registry — timestamps included — untouched. -/
theorem c4_amended_only_post_touches_lastActivity
    (st : ServerState) (sid : String) (t : Transport)
    (headers : List (String × String)) (body : Json) (now : Nat)
    (freshId : String)
    (hhdr : getSessionIdFromHeaders headers = some sid)
    (ht : mapLookup st.transports sid = some t) :
    mapLookup
        (handleRequest st .POST headers body now freshId).2.sessionTimestamps
        sid = some now
    ∧ (handleRequest st .POST headers body now freshId).2.transports
        = st.transports
    ∧ (handleRequest st .GET headers body now freshId).2 = st := by
  have hP : handleRequest st .POST headers body now freshId
      = (.delegated none sid,
         { st with sessionTimestamps := mapInsert st.sessionTimestamps sid now }) := by
    simp [handleRequest, handlePOST, hhdr, ht]
  refine ⟨?_, ?_, handleGET_state st headers⟩
  · rw [hP]; simp [mapLookup_mapInsert]
  · rw [hP]

/-- Witness for the amended C4: a continuation POST at time 100 moves the
timestamp of session `s` from 0 to 100. -/
theorem c4_witness :
    mapLookup (handleRequest ⟨[("s", ⟨"s"⟩)], [("s", 0)]⟩ .POST
        [("mcp-session-id", "s")] Json.null 100 "f").2.sessionTimestamps "s"
      = some 100 :=
  (c4_amended_only_post_touches_lastActivity ⟨[("s", ⟨"s"⟩)], [("s", 0)]⟩
    "s" ⟨"s"⟩ [("mcp-session-id", "s")] Json.null 100 "f"
    (by decide) rfl).1

/-- Counterexample to C5 as stated: a sweep at 30 minutes + 1 ms evicts the
idle session `s` (both maps end empty, a removal event is recorded), yet no
`transportClosed` event occurs — the sweep never invokes
`Transport.close()`. -/
theorem c5_counterexample :
    (cleanupOldSessions ⟨[("s", ⟨"s"⟩)], [("s", 0)]⟩ 1800001).1 = ⟨[], []⟩
    ∧ (cleanupOldSessions ⟨[("s", ⟨"s"⟩)], [("s", 0)]⟩ 1800001).2
        = [Event.sessionRemoved "s"]
    ∧ Event.transportClosed "s"
        ∉ (cleanupOldSessions ⟨[("s", ⟨"s"⟩)], [("s", 0)]⟩ 1800001).2 := by
  refine ⟨?_, ?_, ?_⟩ <;> decide

/-- Claim C5 amended: the reaper removes every idle-expired session from
both registry maps directly; it performs no `Transport.close()` call on any
transport while doing so. -/
theorem c5_amended_reaper_removes_without_close
    (st : ServerState) (now : Nat) (sid : String) (ts : Nat)
    (hts : mapLookup st.sessionTimestamps sid = some ts)
    (hexp : maxAge < now - ts) :
    mapLookup (cleanupOldSessions st now).1.transports sid = none
    ∧ mapLookup (cleanupOldSessions st now).1.sessionTimestamps sid = none
    ∧ ∀ s, Event.transportClosed s ∉ (cleanupOldSessions st now).2 := by
  have hmem := mem_expiredIds hts hexp
  have hc := cleanup_lookup st now sid
  refine ⟨?_, ?_, fun s => cleanup_no_close st now s⟩
  · rw [hc.1]; simp [hmem]
  · rw [hc.2]; simp [hmem]

/-- Witness for the amended C5: the sweep at 30 minutes + 1 ms removes the
idle session and emits no close call. -/
theorem c5_witness :
    mapLookup (cleanupOldSessions ⟨[("w", ⟨"w"⟩)], [("w", 1)]⟩
        1800002).1.transports "w" = none
    ∧ Event.transportClosed "w"
        ∉ (cleanupOldSessions ⟨[("w", ⟨"w"⟩)], [("w", 1)]⟩ 1800002).2 := by
  have h := c5_amended_reaper_removes_without_close
    ⟨[("w", ⟨"w"⟩)], [("w", 1)]⟩ 1800002 "w" 1 rfl (by decide)
  exact ⟨h.1, h.2.2 "w"⟩

/-- Claim C7: removal of a session id is idempotent, removal of an absent
id leaves the registry unchanged (and raises nothing — it is a total
function), and after removal the id looks up as absent in both maps. -/
theorem c7_removal_is_idempotent (st : ServerState) (sid : String) :
    removeSession (removeSession st sid) sid = removeSession st sid
    ∧ mapLookup (removeSession st sid).transports sid = none
    ∧ mapLookup (removeSession st sid).sessionTimestamps sid = none
    ∧ (mapLookup st.transports sid = none →
        mapLookup st.sessionTimestamps sid = none →
        removeSession st sid = st) := by
  refine ⟨?_, ?_, ?_, ?_⟩
  · simp [removeSession, mapErase_mapErase]
  · simp [removeSession, mapLookup_mapErase_self]
  · simp [removeSession, mapLookup_mapErase_self]
  · intro h1 h2
    cases st
    simp [removeSession, mapErase_of_lookup_none _ _ h1,
      mapErase_of_lookup_none _ _ h2]

/-- Witness for C7: removing the absent id `x` from the empty registry is a
no-op, and double removal equals single removal. -/
theorem c7_witness :
    removeSession (removeSession initialState "x") "x"
        = removeSession initialState "x"
    ∧ removeSession initialState "x" = initialState :=
  ⟨(c7_removal_is_idempotent initialState "x").1,
   (c7_removal_is_idempotent initialState "x").2.2.2 rfl rfl⟩

/-- Counterexample to C8 as stated: the mixed casing `Mcp-Session-Id` in
the header map is NOT matched (the read yields nothing), while the
lower-case spelling of the same header yields the value — so reading is not
case-insensitive over every casing. -/
theorem c8_counterexample :
    getSessionIdFromHeaders [("Mcp-Session-Id", "abc")] = none
    ∧ getSessionIdFromHeaders [("mcp-session-id", "abc")] = some "abc" := by
  refine ⟨?_, ?_⟩ <;> decide

/-- Claim C8 amended: exactly the all-lower-case and all-upper-case
spellings of the session-id header name are matched on read, and both yield
the stored value; other mixed casings are not recognized. -/
theorem c8_amended_lower_and_upper_casings_match
    (v : String) (hv : v ≠ "") :
    getSessionIdFromHeaders [("mcp-session-id", v)] = some v
    ∧ getSessionIdFromHeaders [("MCP-SESSION-ID", v)] = some v := by
  constructor
  · exact getSessionId_of_single_header v hv
  · simp [getSessionIdFromHeaders, variations, findHeader, headerTruthy,
      mapLookup, SESSION_ID_HEADER_NAME, hv]

/-- Witness for the amended C8: the upper-case header name yields the
stored session id. -/
theorem c8_witness :
    getSessionIdFromHeaders [("MCP-SESSION-ID", "xyz")] = some "xyz" :=
  (c8_amended_lower_and_upper_casings_match "xyz" (by decide)).2

/-- Claim C9: from the initial empty registry, after any sequence of
event-loop steps (requests, reaper sweeps, transport `onclose` callbacks)
the `transports` map and the `sessionTimestamps` map hold exactly the same
set of session ids. -/
theorem c9_registry_maps_agree_on_keys :
    ∀ ops : List Op, sameKeys (run ops initialState) := by
  intro ops
  apply sameKeys_run
  intro k
  simp [initialState, mapLookup]

/-- Claim C2: whatever a tool operation throws, the handler returns
normally with the same `content` envelope shape as success, marked as an
error; the message prefers the structured
`response.data.errors[0].message` field when it carries a (truthy,
i.e. non-empty) message, then the error's own message, then the generic
fallback. -/
theorem c2_tool_errors_are_enveloped (e : JsError) :
    toolHandler (.error e)
      = ⟨[⟨"text",
          .obj [("error", .str ("Execution failed: " ++ errorMessage e))]⟩]⟩
    ∧ (∀ r : Json, toolHandler (.ok r) = ⟨[⟨"text", r⟩]⟩)
    ∧ (∀ m, structuredMessage e = some m → m ≠ "" → errorMessage e = m)
    ∧ (structuredMessage e = none →
        ∀ m, e.message = some m → m ≠ "" → errorMessage e = m)
    ∧ (structuredMessage e = none → e.message = none →
        errorMessage e = "An unknown error occurred.") := by
  refine ⟨rfl, fun r => rfl, ?_, ?_, ?_⟩
  · intro m hm hne
    simp [errorMessage, jsTruthy, hm, hne]
  · intro hs m hm hne
    simp [errorMessage, jsTruthy, hs, hm, hne]
  · intro hs hm
    simp [errorMessage, jsTruthy, hs, hm]

/-- Witness for C2: an axios-style failure whose structured message is
`boom` wins over its own message `outer`. -/
theorem c2_witness :
    errorMessage ⟨some ⟨some ⟨some [⟨some "boom"⟩]⟩⟩, some "outer"⟩ = "boom"
    ∧ toolHandler (.error ⟨some ⟨some ⟨some [⟨some "boom"⟩]⟩⟩, some "outer"⟩)
      = ⟨[⟨"text", .obj [("error", .str "Execution failed: boom")]⟩]⟩ := by
  have h := c2_tool_errors_are_enveloped
    ⟨some ⟨some ⟨some [⟨some "boom"⟩]⟩⟩, some "outer"⟩
  have hmsg : errorMessage ⟨some ⟨some ⟨some [⟨some "boom"⟩]⟩⟩, some "outer"⟩
      = "boom" := h.2.2.1 "boom" rfl (by decide)
  refine ⟨hmsg, ?_⟩
  rw [h.1, hmsg]
  rfl

end ApimMcp
